import Mathlib

/-!
Shallow embedding of src/main.py (piCam): a single-slot frame buffer
(StreamingOutput) shared between one producer (the camera encoder calling
write) and per-connection MJPEG streaming loops (generate_frames), plus the
Flask route video_feed. Byte strings are lists of natural numbers; the
condition variable is modelled by the set of blocked thread ids together with
explicit wait and notify semantics; each loop iteration of generate_frames is
a step function of the events visible to it.
-/

/-- Byte strings (Python bytes) as lists of byte values. -/
abbrev Bytes := List Nat

/-- The bytes of an ASCII string literal, as they appear in a Python bytes literal. -/
def asciiBytes (s : String) : Bytes := s.data.map Char.toNat

/-- State of StreamingOutput (src/main.py lines 23-35): the latest frame slot
and the condition variable, modelled as the list of thread ids currently
blocked in condition.wait. A fresh instance has frame = None and no waiters. -/
structure StreamingOutput where
  frame : Option Bytes
  waiters : List Nat
deriving DecidableEq

/-- StreamingOutput.__init__: self.frame = None, fresh condition with no waiters. -/
def StreamingOutput.init : StreamingOutput := { frame := none, waiters := [] }

/-- StreamingOutput.write(buf): with self.condition: self.frame = buf;
self.condition.notify_all(); return len(buf). Returns the new state, the list
of thread ids woken by notify_all (all current waiters), and the return value. -/
def StreamingOutput.write (s : StreamingOutput) (buf : Bytes) :
    StreamingOutput × List Nat × Nat :=
  ({ frame := some buf, waiters := [] }, s.waiters, buf.length)

/-- The atomic operations performed by the body of StreamingOutput.write, in
program order: entering the with-block acquires the condition lock, the frame
is stored, notify_all runs, the with-block releases the lock, and the byte
count is returned. -/
inductive WriteOp where
  | acquireLock
  | setFrame (b : Bytes)
  | notifyAllWaiters
  | releaseLock
  | returnLen (n : Nat)
deriving DecidableEq

/-- The operation sequence of one StreamingOutput.write(buf) call. -/
def writeOps (buf : Bytes) : List WriteOp :=
  [WriteOp.acquireLock, WriteOp.setFrame buf, WriteOp.notifyAllWaiters,
   WriteOp.releaseLock, WriteOp.returnLen buf.length]

/-- Net effect of one operation on the lock-hold depth. -/
def lockDelta : WriteOp → Int
  | WriteOp.acquireLock => 1
  | WriteOp.releaseLock => -1
  | _ => 0

/-- The condition lock is held when the i-th operation of the sequence runs:
the acquires minus releases among the first i operations is positive. -/
def lockHeldBefore (ops : List WriteOp) (i : Nat) : Prop :=
  0 < (ops.take i).foldl (fun d op => d + lockDelta op) 0

/-- Python truthiness of the captured frame value: None and empty bytes are falsy. -/
def isTruthy : Option Bytes → Bool
  | none => false
  | some f => !f.isEmpty

/-- The multipart part yielded for frame bytes f (src/main.py lines 104-105):
adjacent Python bytes literals concatenate, so the yield value is one bytes
object made of the boundary-and-header block, the frame, and a trailing CRLF. -/
def mkChunk (f : Bytes) : Bytes :=
  asciiBytes ("--frame\r\nContent-Type: image/jpeg\r\n\r\n") ++ f ++ asciiBytes ("\r\n")

/-- Outcome of one iteration of the while-loop in generate_frames
(src/main.py lines 90-116). -/
inductive StreamAction where
  | yieldChunk (chunk : Bytes)
  | timeoutRetry
  | timeoutExit
  | skipRetry
  | skipExit
deriving DecidableEq

/-- True for the outcomes that break out of the loop. -/
def StreamAction.isExit : StreamAction → Bool
  | StreamAction.timeoutExit => true
  | StreamAction.skipExit => true
  | _ => false

/-- One iteration of the generate_frames loop body. notified: whether
condition.wait(timeout=1.0) returned True (a notify_all reached this waiter
before the timeout). started: the value of picam2.started read in this
iteration. captured: the value picam2.capture_array() returns at this wakeup
(read from the camera, not from output_stream.frame). On a timed-out wait the
loop breaks if the camera stopped and otherwise continues; on a wakeup the
frame is yielded as a multipart chunk only if truthy, else the loop breaks if
the camera stopped and otherwise sleeps 0.01 s and retries. -/
def generate_frames_step (notified : Bool) (started : Bool)
    (captured : Option Bytes) : StreamAction :=
  if !notified then
    if !started then StreamAction.timeoutExit else StreamAction.timeoutRetry
  else if isTruthy captured then
    StreamAction.yieldChunk (mkChunk (captured.getD []))
  else if !started then StreamAction.skipExit
  else StreamAction.skipRetry

/-- Condition.wait(timeout): notifyAt is the instant a notify_all reaches this
waiter, if any. The call returns (True, wake instant) when notified before the
timeout, and otherwise blocks until exactly the timeout and returns False. -/
def condition_wait (notifyAt : Option Nat) (timeout : Nat) : Bool × Nat :=
  match notifyAt with
  | some t => if t < timeout then (true, t) else (false, timeout)
  | none => (false, timeout)

/-- The readiness state read by video_feed and generate_frames: whether the
global picam2 is set, whether the global output_stream is set, and
picam2.started. -/
structure CameraState where
  picamInitialized : Bool
  outputInitialized : Bool
  started : Bool
deriving DecidableEq

/-- The guard `not picam2 or not output_stream or not picam2.started`
(src/main.py lines 86 and 153), phrased positively. -/
def cameraReady (c : CameraState) : Bool :=
  c.picamInitialized && c.outputInitialized && c.started

/-- The response video_feed hands to Flask: a plain body with a status code, a
streaming response with a mimetype, or an unhandled exception. -/
inductive HttpResponse where
  | body (text : String) (status : Nat)
  | stream (mimetype : String)
  | crash
deriving DecidableEq

/-- video_feed (src/main.py lines 150-158): returns ("Camera not ready", 503)
when the camera is not ready, else a streaming Response of generate_frames
with mimetype multipart/x-mixed-replace; boundary=frame. -/
def video_feed (c : CameraState) : HttpResponse :=
  if !cameraReady c then HttpResponse.body ("Camera not ready") 503
  else HttpResponse.stream ("multipart/x-mixed-replace; boundary=frame")

/-- The events one generate_frames loop iteration observes: the wait outcome,
picam2.started, the capture_array result, and whether delivering the yielded
chunk to the client raises (client disconnected). -/
structure IterEvent where
  notified : Bool
  started : Bool
  captured : Option Bytes
  writeFails : Bool
deriving DecidableEq

/-- The chunks a single generate_frames generator delivers to its client over
a sequence of loop iterations: retry outcomes produce nothing and continue,
exit outcomes end the generator, a yielded chunk is delivered unless the
client write raises, in which case the exception ends this generator
(src/main.py lines 114-116). -/
def runLoop : List IterEvent → List Bytes
  | [] => []
  | e :: rest =>
    match generate_frames_step e.notified e.started e.captured with
    | StreamAction.yieldChunk ch => if e.writeFails then [] else ch :: runLoop rest
    | StreamAction.timeoutRetry => runLoop rest
    | StreamAction.skipRetry => runLoop rest
    | StreamAction.timeoutExit => []
    | StreamAction.skipExit => []

/-- generate_frames (src/main.py lines 83-116): if the camera is not ready the
generator returns at once and yields nothing; otherwise it runs the loop. -/
def generate_frames (c : CameraState) (events : List IterEvent) : List Bytes :=
  if !cameraReady c then [] else runLoop events

/-- A system of the shared hub and two client connections A and B, each
running its own generate_frames loop: whether each loop is still running and
the chunks each has delivered so far. -/
structure SysState where
  hub : StreamingOutput
  aLive : Bool
  bLive : Bool
  aOut : List Bytes
  bOut : List Bytes
deriving DecidableEq

/-- A shared event: either the producer publishes buf (waking both loops,
which then capture the given camera value and see the given started flag, and
whose client writes may fail independently), or both waits time out. -/
inductive SysEvent where
  | publish (buf : Bytes) (captured : Option Bytes) (started : Bool)
      (aWriteFails bWriteFails : Bool)
  | timeout (started : Bool)
deriving DecidableEq

/-- Advance one connection by one loop iteration outcome: a dead loop stays
dead; a failing client write ends the loop with nothing delivered; exits end
the loop; retries and successful yields keep it running. -/
def connStep (live : Bool) (out : List Bytes) (act : StreamAction)
    (fails : Bool) : Bool × List Bytes :=
  if live then
    match act with
    | StreamAction.yieldChunk ch => if fails then (false, out) else (true, out ++ [ch])
    | StreamAction.timeoutRetry => (true, out)
    | StreamAction.skipRetry => (true, out)
    | StreamAction.timeoutExit => (false, out)
    | StreamAction.skipExit => (false, out)
  else (false, out)

/-- One shared event applied to the two-connection system. Only the producer
write touches the hub; the consumer loops never assign output_stream fields. -/
def sysStep (s : SysState) (e : SysEvent) : SysState :=
  match e with
  | SysEvent.publish buf captured started aF bF =>
    let hub1 := (StreamingOutput.write s.hub buf).1
    let act := generate_frames_step true started captured
    let a := connStep s.aLive s.aOut act aF
    let b := connStep s.bLive s.bOut act bF
    { hub := hub1, aLive := a.1, bLive := b.1, aOut := a.2, bOut := b.2 }
  | SysEvent.timeout started =>
    let act := generate_frames_step false started none
    let a := connStep s.aLive s.aOut act false
    let b := connStep s.bLive s.bOut act false
    { hub := s.hub, aLive := a.1, bLive := b.1, aOut := a.2, bOut := b.2 }

/-- Run the two-connection system over a sequence of shared events. -/
def sysRun (s : SysState) : List SysEvent → SysState
  | [] => s
  | e :: es => sysRun (sysStep s e) es

/-- The hub evolution an event dictates by itself: a publish rewrites the hub
through StreamingOutput.write and a timeout leaves it untouched. -/
def hubStep (hub : StreamingOutput) : SysEvent → StreamingOutput
  | SysEvent.publish buf _ _ _ _ => (StreamingOutput.write hub buf).1
  | SysEvent.timeout _ => hub

/-- The same event with any write failure of connection A removed. -/
def eraseAFail : SysEvent → SysEvent
  | SysEvent.publish buf captured started _ bF =>
      SysEvent.publish buf captured started false bF
  | SysEvent.timeout st => SysEvent.timeout st

/-- Camera-plus-hub state for shutdown: picam2.started and the shared output. -/
structure CamSys where
  started : Bool
  hub : StreamingOutput
deriving DecidableEq

/-- The shutdown path (src/main.py lines 178-179): if picam2.started:
picam2.stop_recording(). Stopping clears started; nothing notifies
output_stream.condition, so the blocked waiters are untouched. -/
def stop_recording_guarded (s : CamSys) : CamSys :=
  if s.started then { s with started := false } else s

/-! Helper lemmas shared by the isolation proofs. -/

/-- The B-side view (hub, B liveness, B output) of one sysStep does not depend
on the A-side state or on the write failure of connection A. -/
lemma bView_sysStep (e : SysEvent) (s t : SysState)
    (hh : s.hub = t.hub) (hl : s.bLive = t.bLive) (ho : s.bOut = t.bOut) :
    (sysStep s e).hub = (sysStep t (eraseAFail e)).hub
    ∧ (sysStep s e).bLive = (sysStep t (eraseAFail e)).bLive
    ∧ (sysStep s e).bOut = (sysStep t (eraseAFail e)).bOut := by
  cases e <;> simp [sysStep, eraseAFail, hh, hl, ho]

/-- The B-side view of a whole run is unchanged when every A-side write
failure is erased from the events. -/
lemma bView_sysRun (evs : List SysEvent) (s t : SysState)
    (hh : s.hub = t.hub) (hl : s.bLive = t.bLive) (ho : s.bOut = t.bOut) :
    (sysRun s evs).hub = (sysRun t (evs.map eraseAFail)).hub
    ∧ (sysRun s evs).bLive = (sysRun t (evs.map eraseAFail)).bLive
    ∧ (sysRun s evs).bOut = (sysRun t (evs.map eraseAFail)).bOut := by
  induction evs generalizing s t with
  | nil => exact ⟨hh, hl, ho⟩
  | cons e es ih =>
    obtain ⟨h1, h2, h3⟩ := bView_sysStep e s t hh hl ho
    exact ih (sysStep s e) (sysStep t (eraseAFail e)) h1 h2 h3

/-! Claim theorems. -/

/-- C1: the code diverges from the claim. After write stores [1,2,3] as the
latest frame, a woken loop iteration whose picam2.capture_array() returns [9]
yields the chunk built from the captured [9], not from the stored [1,2,3]:
the delivered bytes come from the camera capture, not from the bytes stored
by the write call that woke the loop. -/
theorem c1_chunk_from_capture_not_from_write :
    (StreamingOutput.write StreamingOutput.init [1, 2, 3]).1.frame = some [1, 2, 3]
    ∧ generate_frames_step true true (some [9]) = StreamAction.yieldChunk (mkChunk [9])
    ∧ mkChunk [9] ≠ mkChunk [1, 2, 3] := by
  refine ⟨rfl, rfl, ?_⟩
  decide

/-- C2: StreamingOutput.write(buf) stores buf as the latest frame, wakes every
thread currently blocked on the condition (notify_all, not notify-one),
returns len(buf), and both the frame store and the notify_all run while the
single condition lock is held. -/
theorem c2_write_stores_and_wakes_all (s : StreamingOutput) (buf : Bytes) :
    (StreamingOutput.write s buf).1.frame = some buf
    ∧ (StreamingOutput.write s buf).2.1 = s.waiters
    ∧ (StreamingOutput.write s buf).2.2 = buf.length
    ∧ (writeOps buf).get? 1 = some (WriteOp.setFrame buf)
    ∧ (writeOps buf).get? 2 = some WriteOp.notifyAllWaiters
    ∧ lockHeldBefore (writeOps buf) 1
    ∧ lockHeldBefore (writeOps buf) 2 := by
  refine ⟨rfl, rfl, rfl, rfl, rfl, ?_, ?_⟩ <;>
    simp [lockHeldBefore, writeOps, lockDelta]

/-- C3 counterexample: the hub keeps no version counter at all. No function of
the StreamingOutput state can increase by exactly 1 on every publish, because
publishing the same buffer twice is idempotent on the state. -/
theorem c3_no_version_counter :
    ¬ ∃ version : StreamingOutput → Nat,
      ∀ s buf, version (StreamingOutput.write s buf).1 = version s + 1 := by
  rintro ⟨version, h⟩
  have h1 := h StreamingOutput.init [0]
  have h2 := h (StreamingOutput.write StreamingOutput.init [0]).1 [0]
  have heq : (StreamingOutput.write
      (StreamingOutput.write StreamingOutput.init [0]).1 [0]).1
      = (StreamingOutput.write StreamingOutput.init [0]).1 := rfl
  rw [heq, h1] at h2
  omega

/-- C3 amended: a publish stores only the buffer; the post-write state is
exactly (frame := buf, no remaining waiters), fully determined by the buffer,
so repeating a publish of the same buffer leaves the state unchanged and no
strictly-increasing per-publish counter exists in the hub. -/
theorem c3_publish_state_determined (s : StreamingOutput) (buf : Bytes) :
    (StreamingOutput.write s buf).1 = { frame := some buf, waiters := [] }
    ∧ (StreamingOutput.write (StreamingOutput.write s buf).1 buf).1
        = (StreamingOutput.write s buf).1 :=
  ⟨rfl, rfl⟩

/-- C4: with no intervening publish no notify reaches the waiter, so
condition.wait blocks until exactly its timeout and returns timed-out, and a
timed-out loop iteration never yields a chunk to the client. -/
theorem c4_no_publish_no_delivery (timeout : Nat) (started : Bool)
    (captured : Option Bytes) :
    condition_wait none timeout = (false, timeout)
    ∧ ∀ ch, generate_frames_step false started captured ≠ StreamAction.yieldChunk ch := by
  refine ⟨rfl, ?_⟩
  intro ch
  cases started <;> simp [generate_frames_step]

/-- C5: when the camera is not ready, video_feed returns the plain-text body
"Camera not ready" with status 503, not a stream and not a crash, and the
generate_frames generator emits no chunks at all. -/
theorem c5_not_ready_returns_503 (c : CameraState) (events : List IterEvent)
    (h : cameraReady c = false) :
    video_feed c = HttpResponse.body ("Camera not ready") 503
    ∧ video_feed c ≠ HttpResponse.crash
    ∧ (∀ m, video_feed c ≠ HttpResponse.stream m)
    ∧ generate_frames c events = [] := by
  refine ⟨?_, ?_, ?_, ?_⟩ <;> simp [video_feed, generate_frames, h]

/-- Witness for C5 at the concrete not-ready state where output_stream is
None (picam2 set and started, output_stream missing). -/
theorem c5_witness :
    cameraReady ⟨true, false, true⟩ = false
    ∧ (video_feed ⟨true, false, true⟩ = HttpResponse.body ("Camera not ready") 503
       ∧ video_feed ⟨true, false, true⟩ ≠ HttpResponse.crash
       ∧ (∀ m, video_feed ⟨true, false, true⟩ ≠ HttpResponse.stream m)
       ∧ generate_frames ⟨true, false, true⟩ [] = []) :=
  ⟨rfl, c5_not_ready_returns_503 ⟨true, false, true⟩ [] rfl⟩

/-- C6: every part emitted for a frame f is exactly the bytes of "--frame",
CRLF, "Content-Type: image/jpeg", CRLF, CRLF, f, CRLF, and a ready video_feed
response carries the mimetype multipart/x-mixed-replace; boundary=frame. -/
theorem c6_multipart_format (c : CameraState) (f : Bytes)
    (h : cameraReady c = true) :
    mkChunk f
      = asciiBytes ("--frame\r\n") ++ asciiBytes ("Content-Type: image/jpeg\r\n")
        ++ asciiBytes ("\r\n") ++ f ++ asciiBytes ("\r\n")
    ∧ video_feed c = HttpResponse.stream ("multipart/x-mixed-replace; boundary=frame") := by
  constructor
  · have hpre : asciiBytes ("--frame\r\nContent-Type: image/jpeg\r\n\r\n")
        = asciiBytes ("--frame\r\n") ++ asciiBytes ("Content-Type: image/jpeg\r\n")
          ++ asciiBytes ("\r\n") := by decide
    simp [mkChunk, hpre, List.append_assoc]
  · simp [video_feed, h]

/-- Witness for C6 at the ready camera state and the one-byte frame [0]. -/
theorem c6_witness :
    cameraReady ⟨true, true, true⟩ = true
    ∧ (mkChunk [0]
        = asciiBytes ("--frame\r\n") ++ asciiBytes ("Content-Type: image/jpeg\r\n")
          ++ asciiBytes ("\r\n") ++ [0] ++ asciiBytes ("\r\n")
       ∧ video_feed ⟨true, true, true⟩
          = HttpResponse.stream ("multipart/x-mixed-replace; boundary=frame")) :=
  ⟨rfl, c6_multipart_format ⟨true, true, true⟩ [0] rfl⟩

/-- C7: a timed-out wait is not an error and does not end the loop while the
camera is live: the iteration outcome is timeoutRetry, which is not an exit
and yields nothing, and the generator keeps running into the next iteration;
the loop exits on timeout only when picam2.started is false. -/
theorem c7_timeout_retries (captured : Option Bytes) (wf : Bool)
    (rest : List IterEvent) :
    generate_frames_step false true captured = StreamAction.timeoutRetry
    ∧ generate_frames_step false false captured = StreamAction.timeoutExit
    ∧ StreamAction.isExit StreamAction.timeoutRetry = false
    ∧ (∀ ch, StreamAction.timeoutRetry ≠ StreamAction.yieldChunk ch)
    ∧ runLoop ({ notified := false, started := true, captured := captured,
                 writeFails := wf } :: rest) = runLoop rest := by
  refine ⟨rfl, rfl, rfl, ?_, ?_⟩
  · intro ch
    simp
  · simp [runLoop, generate_frames_step]

/-- C8: a client-write failure is terminal for that connection only:
connection A stops and delivers nothing from the failed write, the hub after
any event is exactly what the event itself dictates (consumers never mutate
it), and the hub, liveness and output of connection B over any run are
identical to the run in which A never fails. -/
theorem c8_write_failure_isolated (s : SysState) (buf : Bytes) (f : Bytes)
    (bF : Bool) (evs : List SysEvent) (hA : s.aLive = true) :
    (sysStep s (SysEvent.publish buf (some (0 :: f)) true true bF)).aLive = false
    ∧ (sysStep s (SysEvent.publish buf (some (0 :: f)) true true bF)).aOut = s.aOut
    ∧ (∀ e, (sysStep s e).hub = hubStep s.hub e)
    ∧ (sysRun s evs).hub = (sysRun s (evs.map eraseAFail)).hub
    ∧ (sysRun s evs).bLive = (sysRun s (evs.map eraseAFail)).bLive
    ∧ (sysRun s evs).bOut = (sysRun s (evs.map eraseAFail)).bOut := by
  refine ⟨?_, ?_, ?_, ?_, ?_, ?_⟩
  · simp [sysStep, connStep, generate_frames_step, isTruthy, hA]
  · simp [sysStep, connStep, generate_frames_step, isTruthy, hA]
  · intro e
    cases e <;> simp [sysStep, hubStep]
  · exact (bView_sysRun evs s s rfl rfl rfl).1
  · exact (bView_sysRun evs s s rfl rfl rfl).2.1
  · exact (bView_sysRun evs s s rfl rfl rfl).2.2

/-- Witness for C8: both connections live on a fresh hub, A's write of the
published frame fails while B's succeeds. -/
theorem c8_witness :
    (⟨StreamingOutput.init, true, true, [], []⟩ : SysState).aLive = true
    ∧ ((sysStep ⟨StreamingOutput.init, true, true, [], []⟩
          (SysEvent.publish [1] (some (0 :: [])) true true false)).aLive = false
       ∧ (sysStep ⟨StreamingOutput.init, true, true, [], []⟩
          (SysEvent.publish [1] (some (0 :: [])) true true false)).aOut = []
       ∧ (∀ e, (sysStep ⟨StreamingOutput.init, true, true, [], []⟩ e).hub
            = hubStep StreamingOutput.init e)
       ∧ (sysRun ⟨StreamingOutput.init, true, true, [], []⟩
            [SysEvent.publish [2] (some [2]) true true false]).hub
          = (sysRun ⟨StreamingOutput.init, true, true, [], []⟩
              ([SysEvent.publish [2] (some [2]) true true false].map eraseAFail)).hub
       ∧ (sysRun ⟨StreamingOutput.init, true, true, [], []⟩
            [SysEvent.publish [2] (some [2]) true true false]).bLive
          = (sysRun ⟨StreamingOutput.init, true, true, [], []⟩
              ([SysEvent.publish [2] (some [2]) true true false].map eraseAFail)).bLive
       ∧ (sysRun ⟨StreamingOutput.init, true, true, [], []⟩
            [SysEvent.publish [2] (some [2]) true true false]).bOut
          = (sysRun ⟨StreamingOutput.init, true, true, [], []⟩
              ([SysEvent.publish [2] (some [2]) true true false].map eraseAFail)).bOut) :=
  ⟨rfl, c8_write_failure_isolated ⟨StreamingOutput.init, true, true, [], []⟩
    [1] [] false [SysEvent.publish [2] (some [2]) true true false] rfl⟩

/-- C9 counterexample: shutdown wakes no blocked waiter. With threads 0 and 1
blocked on the condition, the guarded stop_recording only clears started and
leaves both threads blocked, so Close does not wake every blocked waiter. -/
theorem c9_shutdown_wakes_nobody :
    stop_recording_guarded ⟨true, ⟨none, [0, 1]⟩⟩ = ⟨false, ⟨none, [0, 1]⟩⟩
    ∧ (stop_recording_guarded ⟨true, ⟨none, [0, 1]⟩⟩).hub.waiters ≠ [] := by
  refine ⟨rfl, ?_⟩
  decide

/-- C9 amended: shutdown is idempotent and marks the camera stopped but wakes
no waiter; each blocked waiter still stops blocking within a bounded time,
because its condition.wait returns timed-out at exactly its timeout and the
next loop iteration then observes the stopped camera and exits. -/
theorem c9_shutdown_observed_via_timeout (s : CamSys) (timeout : Nat)
    (captured : Option Bytes) :
    stop_recording_guarded (stop_recording_guarded s) = stop_recording_guarded s
    ∧ (stop_recording_guarded s).started = false
    ∧ (stop_recording_guarded s).hub.waiters = s.hub.waiters
    ∧ condition_wait none timeout = (false, timeout)
    ∧ generate_frames_step false (stop_recording_guarded s).started captured
        = StreamAction.timeoutExit := by
  by_cases h : s.started <;>
    simp [stop_recording_guarded, h, condition_wait, generate_frames_step]

/-- C10: a wakeup whose captured frame is None or empty bytes yields no chunk
(the chunk concatenation is never formed on a missing frame), and the loop
exits if the camera has stopped and otherwise pauses briefly and retries. -/
theorem c10_falsy_frame_never_yields (started : Bool) :
    (∀ ch, generate_frames_step true started none ≠ StreamAction.yieldChunk ch)
    ∧ (∀ ch, generate_frames_step true started (some []) ≠ StreamAction.yieldChunk ch)
    ∧ generate_frames_step true false none = StreamAction.skipExit
    ∧ generate_frames_step true true none = StreamAction.skipRetry
    ∧ generate_frames_step true false (some []) = StreamAction.skipExit
    ∧ generate_frames_step true true (some []) = StreamAction.skipRetry := by
  cases started <;> simp [generate_frames_step, isTruthy]
